import Mathlib

/-! Shallow embedding of the skintone-shop recommendation engine
(src/ml_recommendation_engine.py).  The pure scoring and feature logic is
translated directly from the Python source; the Flask route handlers are
modelled as explicit state-passing functions over an EngineState record; the
fitted scikit-learn classifier is abstracted as an opaque score function
supplied as a parameter (the claims quantify over every trained model).
Machine strings are modelled as ASCII Lean strings, floats as rationals. -/

/-- Python str.lower restricted to the ASCII range (all color names,
categories and undertones handled by the repository are ASCII). -/
def pyLowerChar (c : Char) : Char :=
  if 65 ≤ c.toNat ∧ c.toNat ≤ 90 then Char.ofNat (c.toNat + 32) else c

/-- Python s.lower() on a whole string. -/
def pyLower (s : String) : String :=
  String.mk (s.data.map pyLowerChar)

/-- Boolean test that the first character list is a prefix of the second. -/
def isPrefixCL : List Char → List Char → Bool
  | [], _ => true
  | _ :: _, [] => false
  | a :: as, b :: bs => a == b && isPrefixCL as bs

/-- Boolean test that the first character list occurs contiguously inside the
second (Python `needle in hay` on strings). -/
def containsCL (needle : List Char) : List Char → Bool
  | [] => needle.isEmpty
  | h :: t => isPrefixCL needle (h :: t) || containsCL needle t

/-- Python substring containment on strings: `containsStr needle hay` embeds
`needle in hay`. -/
def containsStr (needle hay : String) : Bool :=
  containsCL needle.data hay.data

/-- COLOR_FAMILIES from the source, as an ordered association list (Python
dicts preserve insertion order, and get_color_family iterates in that
order). -/
def COLOR_FAMILIES : List (String × List String) :=
  [("red", ["red", "maroon", "burgundy", "crimson", "scarlet", "ruby", "cherry"]),
   ("pink", ["pink", "rose", "fuchsia", "magenta", "salmon"]),
   ("orange", ["orange", "peach", "coral", "amber", "terracotta", "rust"]),
   ("yellow", ["yellow", "gold", "mustard", "lemon", "honey"]),
   ("green", ["green", "olive", "emerald", "lime", "mint", "sage", "forest green", "hunter green"]),
   ("blue", ["blue", "navy", "teal", "turquoise", "cobalt", "royal blue", "sky blue", "cyan"]),
   ("purple", ["purple", "lavender", "violet", "plum", "lilac", "mauve", "indigo", "amethyst"]),
   ("brown", ["brown", "tan", "beige", "camel", "khaki", "chestnut", "chocolate", "coffee"]),
   ("neutral", ["white", "black", "gray", "grey", "silver", "ivory", "cream"])]

/-- COLOR_TONES from the source, as an ordered association list in exact
declaration order. -/
def COLOR_TONES : List (String × String) :=
  [("red", "warm"), ("burgundy", "cool"), ("crimson", "warm"), ("scarlet", "warm"),
   ("maroon", "cool"), ("ruby", "cool"), ("cherry", "cool"), ("pink", "cool"),
   ("rose", "cool"), ("salmon", "warm"), ("fuchsia", "cool"), ("magenta", "cool"),
   ("orange", "warm"), ("peach", "warm"), ("coral", "warm"), ("amber", "warm"),
   ("terracotta", "warm"), ("rust", "warm"), ("yellow", "warm"), ("gold", "warm"),
   ("mustard", "warm"), ("lemon", "cool"), ("honey", "warm"), ("green", "neutral"),
   ("olive", "warm"), ("emerald", "cool"), ("lime", "cool"), ("mint", "cool"),
   ("sage", "cool"), ("forest green", "cool"), ("hunter green", "cool"),
   ("blue", "cool"), ("navy", "cool"), ("teal", "cool"), ("turquoise", "cool"),
   ("cobalt", "cool"), ("royal blue", "cool"), ("sky blue", "cool"), ("cyan", "cool"),
   ("purple", "cool"), ("lavender", "cool"), ("violet", "cool"), ("plum", "cool"),
   ("lilac", "cool"), ("mauve", "cool"), ("indigo", "cool"), ("amethyst", "cool"),
   ("brown", "warm"), ("tan", "warm"), ("beige", "warm"), ("camel", "warm"),
   ("khaki", "warm"), ("chestnut", "warm"), ("chocolate", "warm"), ("coffee", "warm"),
   ("white", "neutral"), ("black", "neutral"), ("gray", "neutral"), ("grey", "neutral"),
   ("silver", "cool"), ("ivory", "warm"), ("cream", "warm")]

/-- get_color_family: first family (in declaration order) one of whose tokens
occurs in the lower-cased input, else "other". -/
def get_color_family (color_str : String) : String :=
  let normalized := pyLower color_str
  match COLOR_FAMILIES.find? (fun fc => fc.2.any (fun c => containsStr c normalized)) with
  | some fc => fc.1
  | none => "other"

/-- get_color_tone: lower-case the input; an exact dictionary-key match takes
priority; otherwise the first key (in declaration order) that occurs as a
substring of the input; otherwise "neutral". -/
def get_color_tone (color_str : String) : String :=
  let normalized := pyLower color_str
  match COLOR_TONES.find? (fun kv => kv.1 == normalized) with
  | some kv => kv.2
  | none =>
    match COLOR_TONES.find? (fun kv => containsStr kv.1 normalized) with
    | some kv => kv.2
    | none => "neutral"

/-- color_compatibility_score: 50 when the color list or the undertone is
falsy, else a fold starting at 50 with +10 for a tone equal to the skin
undertone, +5 when either side is neutral, and -5 otherwise, clamped to
[0, 100] exactly as in the source (`max(0, min(100, score))`). -/
def color_compatibility_score (product_colors : List String) (skin_undertone : String) : ℤ :=
  if product_colors = [] ∨ skin_undertone = "" then 50
  else
    let s := product_colors.foldl
      (fun acc color =>
        let color_tone := get_color_tone color
        if color_tone = skin_undertone then acc + 10
        else if color_tone = "neutral" then acc + 5
        else if skin_undertone = "neutral" then acc + 5
        else acc - 5) 50
    max 0 (min 100 s)

/-- Product record.  Field defaults model the `.get(key, default)` accesses
the source performs on the raw product dict (`id` itself is accessed with
`product['id']` and is given no meaningful default). -/
structure Product where
  id : String := ""
  name : String := ""
  description : String := ""
  price : ℚ := 0
  currency : String := ""
  colors : List String := []
  sizes : List String := []
  category : String := ""
  retailer : String := ""
  gender : String := ""
  rating : ℚ := 0
  reviewCount : ℕ := 0
deriving DecidableEq

/-- The userInfo dict of a request; a missing key is `none`
(`user_info.get(...)` supplies the endpoint-specific default). -/
structure UserInfo where
  undertone : Option String := none
  depth : Option String := none
deriving DecidableEq

/-- Scoring core of the /api/compatibility handler (calculate_compatibility):
simple scorer, then +5 for the Tops/Dresses categories, then the clamp, and
the High/Medium/Low level thresholds.  The prose `reason` strings and the
surrounding JSON plumbing carry no scoring logic and are omitted. -/
def calculate_compatibility (product : Product) (user_info : UserInfo) : ℤ × String :=
  let undertone := user_info.undertone.getD ""
  let score := color_compatibility_score product.colors undertone
  let score := if product.category = "Tops" ∨ product.category = "Dresses" then score + 5 else score
  let score := max 0 (min 100 score)
  (score, if score ≥ 80 then "High" else if score ≥ 50 then "Medium" else "Low")

/-- A value stored in a feature dict: either a string-valued field or a
numeric one (Python mixes both in the same dict). -/
inductive FVal where
  | s (v : String)
  | n (v : ℚ)
deriving DecidableEq

/-- A product feature dict: an insertion-ordered association list, matching
Python dict semantics for string keys. -/
abbrev FeatureRow := List (String × FVal)

/-- Python `d[k]` read access returning `none` for a missing key. -/
def lookupKey (row : FeatureRow) (k : String) : Option FVal :=
  (row.find? (fun kv => kv.1 == k)).map (fun kv => kv.2)

/-- Python `d[k] = v`: overwrite in place when the key exists (keeping its
position), otherwise append, as insertion-ordered dicts do. -/
def setKey (row : FeatureRow) (k : String) (v : FVal) : FeatureRow :=
  if row.any (fun kv => kv.1 == k) then
    row.map (fun kv => if kv.1 == k then (k, v) else kv)
  else row ++ [(k, v)]

/-- The family names, in COLOR_FAMILIES declaration order. -/
def familyNames : List String := COLOR_FAMILIES.map Prod.fst

/-- The tone bucket names, in the order the source initialises color_tones. -/
def toneNames : List String := ["warm", "cool", "neutral"]

/-- Count of colors whose get_color_family is the given family.  The source
accumulates these counts in a per-family loop; since a color increments
exactly the counter of its own family (and "other" has no counter), the count
for each declared family equals this countP. -/
def famCount (colors : List String) (fam : String) : ℕ :=
  colors.countP (fun c => get_color_family c == fam)

/-- Count of colors whose get_color_tone is the given tone (every value of
COLOR_TONES and the default are in the three buckets, so the source's
`if tone in color_tones` guard is always taken). -/
def toneCount (colors : List String) (t : String) : ℕ :=
  colors.countP (fun c => get_color_tone c == t)

/-- extract_product_features: the fixed scalar fields, then one
color_family_<family> fraction per family and one color_tone_<tone> fraction
per tone, normalised by num_colors when positive and all zero otherwise,
in the source's dict insertion order. -/
def extract_product_features (p : Product) : FeatureRow :=
  let colors := p.colors
  let base : FeatureRow :=
    [("category", FVal.s p.category), ("gender", FVal.s p.gender),
     ("price", FVal.n p.price), ("rating", FVal.n p.rating),
     ("review_count", FVal.n p.reviewCount), ("num_colors", FVal.n colors.length)]
  base ++
    (if colors.length > 0 then
      familyNames.map (fun f =>
        ("color_family_" ++ f, FVal.n ((famCount colors f : ℚ) / colors.length))) ++
      toneNames.map (fun t =>
        ("color_tone_" ++ t, FVal.n ((toneCount colors t : ℚ) / colors.length)))
    else
      familyNames.map (fun f => ("color_family_" ++ f, FVal.n 0)) ++
      toneNames.map (fun t => ("color_tone_" ++ t, FVal.n 0)))

/-- prepare_product_dataframe: one feature row per product, with the id
column appended after feature extraction. -/
def prepare_product_dataframe (products : List Product) : List FeatureRow :=
  products.map (fun p => setKey (extract_product_features p) "id" (FVal.s p.id))

/-- The fixed feature schema every product row carries. -/
def fixedFeatureKeys : List String :=
  ["category", "gender", "price", "rating", "review_count", "num_colors"] ++
  familyNames.map (fun f => "color_family_" ++ f) ++
  toneNames.map (fun t => "color_tone_" ++ t)

/-- Feature row as the spec describes it: same fixed keys, and every
family/tone feature equal to count/num_colors, taken to be 0 for a product
with no colors. -/
def spec_feature_row (p : Product) : FeatureRow :=
  [("category", FVal.s p.category), ("gender", FVal.s p.gender),
   ("price", FVal.n p.price), ("rating", FVal.n p.rating),
   ("review_count", FVal.n p.reviewCount), ("num_colors", FVal.n p.colors.length)] ++
  familyNames.map (fun f =>
    ("color_family_" ++ f,
     FVal.n (if p.colors.length = 0 then 0 else (famCount p.colors f : ℚ) / p.colors.length))) ++
  toneNames.map (fun t =>
    ("color_tone_" ++ t,
     FVal.n (if p.colors.length = 0 then 0 else (toneCount p.colors t : ℚ) / p.colors.length)))

/-- SkinToneProfile record. -/
structure SkinTone where
  id : String := ""
  name : String := ""
  undertone : String := "neutral"
  depth : String := "medium"
  recommendedColors : List String := []
  notRecommendedColors : List String := []
deriving DecidableEq

/-- Case-insensitive either-direction substring test performed by the labeled
scorer: `rec_color in color_lower or color_lower in rec_color` (both sides
already lower-cased by the caller). -/
def colorMatches (phrase colorLower : String) : Bool :=
  containsStr phrase colorLower || containsStr colorLower phrase

/-- One iteration of the labeled scorer's per-color loop: +10 when any
recommended phrase matches (the source breaks after the first matching
phrase, so a single +10 regardless of how many match), and independently
-10 when any not-recommended phrase matches. -/
def labeledScoreStep (recs nots : List String) (score : ℤ) (color : String) : ℤ :=
  let cl := pyLower color
  let score := if recs.any (fun r => colorMatches r cl) then score + 10 else score
  if nots.any (fun r => colorMatches r cl) then score - 10 else score

/-- The labeled scorer inlined in train_compatibility_model: baseline 50,
the per-color loop over the lower-cased recommended/not-recommended phrase
lists (the source materialises them as sets, which only affects duplicate
phrases, not the existence test), the Tops/Dresses category bonus, and the
clamp to [0, 100]. -/
def labeledScore (product : Product) (skin_tone : SkinTone) : ℤ :=
  let recommended_colors := skin_tone.recommendedColors.map pyLower
  let not_recommended_colors := skin_tone.notRecommendedColors.map pyLower
  let score := product.colors.foldl (labeledScoreStep recommended_colors not_recommended_colors) 50
  let score := if product.category = "Tops" ∨ product.category = "Dresses" then score + 5 else score
  max 0 (min 100 score)

/-- Compatibility class thresholds used for the training labels. -/
def classifyScore (score : ℤ) : String :=
  if score ≥ 70 then "high" else if score ≥ 40 then "medium" else "low"

/-- One synthesized training row: product features plus the profile's
undertone and depth, the labeled score and its class, added to the dict in
the source's order. -/
def trainingRow (p : Product) (t : SkinTone) : FeatureRow :=
  let features := extract_product_features p
  let features := setKey features "undertone" (FVal.s t.undertone)
  let features := setKey features "depth" (FVal.s t.depth)
  let features := setKey features "compatibility_score" (FVal.n (labeledScore p t))
  setKey features "compatibility_class" (FVal.s (classifyScore (labeledScore p t)))

/-- The per-color score adjustment as the spec phrases it: +10 when the color
matches some recommended phrase, plus -10 when it matches some
not-recommended phrase (a color may trigger both). -/
def spec_colorAdjustment (recs nots : List String) (color : String) : ℤ :=
  (if recs.any (fun r => colorMatches r (pyLower color)) then 10 else 0) +
  (if nots.any (fun r => colorMatches r (pyLower color)) then -10 else 0)

/-- The labeled score as the spec phrases it: 50 plus the sum of independent
per-color adjustments, plus the category bonus, clamped to [0, 100]. -/
def spec_labeledScore (p : Product) (t : SkinTone) : ℤ :=
  let recs := t.recommendedColors.map pyLower
  let nots := t.notRecommendedColors.map pyLower
  let score := 50 + (p.colors.map (spec_colorAdjustment recs nots)).sum
  let score := if p.category = "Tops" ∨ p.category = "Dresses" then score + 5 else score
  max 0 (min 100 score)

/-- SAMPLE_PRODUCTS from the source (the single built-in sample). -/
def SAMPLE_PRODUCTS : List Product :=
  [{ id := "1", name := "Classic Cotton T-shirt",
     description := "A comfortable cotton t-shirt for everyday wear. Perfect for casual outings and relaxed settings.",
     price := 1999/100, currency := "USD",
     colors := ["White", "Black", "Navy", "Red", "Olive Green"],
     sizes := ["S", "M", "L", "XL"], category := "Tops", retailer := "Amazon",
     gender := "unisex", rating := 45/10, reviewCount := 120 }]

/-- SKIN_TONES from the source: the nine canonical profiles. -/
def SKIN_TONES : List SkinTone :=
  [{ id := "warm_light", name := "Light Warm", undertone := "warm", depth := "light",
     recommendedColors := ["Peach", "Coral", "Warm orange", "Golden yellow", "Olive green",
       "Warm red", "Terracotta", "Ivory", "Cream", "Bronze"],
     notRecommendedColors := ["Blue-based pink", "Cold blue", "Silver", "Icy pastels", "Deep purple"] },
   { id := "warm_medium", name := "Medium Warm", undertone := "warm", depth := "medium",
     recommendedColors := ["Amber", "Warm brown", "Orange red", "Teal", "Forest green",
       "Warm coral", "Camel", "Honey", "Mustard", "Bronze"],
     notRecommendedColors := ["Pastel blue", "Cool gray", "Magenta", "Baby pink", "Icy white"] },
   { id := "warm_deep", name := "Deep Warm", undertone := "warm", depth := "deep",
     recommendedColors := ["Bright orange", "Warm red", "Gold", "Copper", "Hunter green",
       "Tangerine", "Bright yellow", "Magenta", "Purple", "Fuchsia"],
     notRecommendedColors := ["Pale pastels", "Light beige", "Muted colors", "Olive", "Dusty rose"] },
   { id := "cool_light", name := "Light Cool", undertone := "cool", depth := "light",
     recommendedColors := ["Rose pink", "Blue-red", "Lavender", "Navy", "Emerald",
       "Raspberry", "Blue-toned purple", "Silver", "Soft white", "Gray"],
     notRecommendedColors := ["Orange", "Warm yellows", "Peach", "Coral", "Camel"] },
   { id := "cool_medium", name := "Medium Cool", undertone := "cool", depth := "medium",
     recommendedColors := ["Fuchsia", "Plum", "Ruby", "Royal blue", "Pine green",
       "True red", "Cool pink", "Cool mint", "Deep purple", "Burgundy"],
     notRecommendedColors := ["Rust", "Warm brown", "Yellow", "Orange", "Olive"] },
   { id := "cool_deep", name := "Deep Cool", undertone := "cool", depth := "deep",
     recommendedColors := ["Royal purple", "True red", "Hot pink", "Cobalt blue", "Emerald green",
       "Pure white", "Bright berry tones", "True blue", "Electric blue", "Wine red"],
     notRecommendedColors := ["Orange", "Khaki", "Muted browns", "Light pastels", "Warm yellows"] },
   { id := "neutral_light", name := "Light Neutral", undertone := "neutral", depth := "light",
     recommendedColors := ["Soft pink", "Light blue", "Camel", "Medium gray", "Sage green",
       "Periwinkle", "Soft white", "Navy", "Medium purple", "Teal"],
     notRecommendedColors := ["Very bright colors", "Neon colors", "Very dark colors"] },
   { id := "neutral_medium", name := "Medium Neutral", undertone := "neutral", depth := "medium",
     recommendedColors := ["Teal", "Medium blue", "Coral", "Burgundy", "Olive green",
       "Medium purple", "Camel", "Forest green", "Russet", "Navy"],
     notRecommendedColors := ["Neon colors", "Very pale pastels"] },
   { id := "neutral_deep", name := "Deep Neutral", undertone := "neutral", depth := "deep",
     recommendedColors := ["Emerald green", "Royal blue", "Bright red", "Pure white", "Orange",
       "Fuchsia", "Cobalt blue", "Gold", "Bright yellow", "Purple"],
     notRecommendedColors := ["Beige", "Pale yellow", "Light pastels", "Muted tones"] }]

/-- A trained model: the fitted scikit-learn pipeline is opaque, so it is
abstracted as a function from the selected feature columns to the probability
of the "high" class as chosen by the high_idx logic (P of the first class in
the degenerate case), together with the ordered raw column names it was fit
on, mirroring the dict returned by train_compatibility_model. -/
structure Model where
  probaHigh : List (Option FVal) → ℚ
  features : List String

/-- The user features derived by prepare_user_features: undertone/depth with
the source's defaults. -/
structure UserFeatures where
  undertone : String
  depth : String
deriving DecidableEq

/-- prepare_user_features from the source. -/
def prepare_user_features (user_info : UserInfo) : UserFeatures :=
  { undertone := user_info.undertone.getD "neutral",
    depth := user_info.depth.getD "medium" }

/-- The synthesized training table: every product crossed with every skin
tone, in the source's nested-loop order. -/
def trainingTable (products : List Product) (skin_tones : List SkinTone) : List FeatureRow :=
  (products.map (fun p => skin_tones.map (trainingRow p))).flatten

/-- train_compatibility_model: None when the product or skin-tone list is
falsy, otherwise the model produced by fitting the synthesized table.  The
`fit` parameter abstracts the scikit-learn pipeline fitting. -/
def train_compatibility_model (fit : List FeatureRow → Model)
    (products : List Product) (skin_tones : List SkinTone) : Option Model :=
  if products = [] ∨ skin_tones = [] then none
  else some (fit (trainingTable products skin_tones))

/-- `combined_features = {**product_row, **user_features}`: the user's
undertone and depth are written into a copy of the product row. -/
def combineRow (row : FeatureRow) (uf : UserFeatures) : FeatureRow :=
  setKey (setKey row "undertone" (FVal.s uf.undertone)) "depth" (FVal.s uf.depth)

/-- `X_pred = prediction_df[model_features]`: select the model's columns in
its stored order (a missing column is `none`; pandas would raise there). -/
def selectCols (features : List String) (row : FeatureRow) : List (Option FVal) :=
  features.map (lookupKey row)

/-- The continuous predicted score written into the compatibility_score
column: 100 times the predicted probability of the "high" class. -/
def rowScore (model : Model) (uf : UserFeatures) (row : FeatureRow) : ℚ :=
  100 * model.probaHigh (selectCols model.features (combineRow row uf))

/-- `product_df['compatibility_score'] = compatibility_probs[:, high_idx] * 100`:
every row gets the score column written in place. -/
def scoreTable (table : List FeatureRow) (uf : UserFeatures) (model : Model) : List FeatureRow :=
  table.map (fun row => setKey row "compatibility_score" (FVal.n (rowScore model uf row)))

/-- Read the compatibility_score column of a scored row (present on every
row the code reads it from; pandas would raise otherwise). -/
def scoreOf (row : FeatureRow) : ℚ :=
  match lookupKey row "compatibility_score" with
  | some (FVal.n v) => v
  | _ => 0

/-- Read the id column of a row (present on every row produced by
prepare_product_dataframe). -/
def getStr (row : FeatureRow) (k : String) : String :=
  match lookupKey row k with
  | some (FVal.s v) => v
  | _ => ""

/-- Python int(): truncation toward zero.  On a rational in lowest terms this
is integer T-division of the numerator by the denominator. -/
def pyInt (q : ℚ) : ℤ := q.num / (q.den : ℤ)

/-- generate_basic_recommendation_reason: the deterministic fallback reason
template keyed on score bands. -/
def generate_basic_recommendation_reason (row : FeatureRow) (uf : UserFeatures) : String :=
  let category := match lookupKey row "category" with
    | some (FVal.s v) => v
    | _ => "item"
  let score := match lookupKey row "compatibility_score" with
    | some (FVal.n v) => v
    | _ => 50
  if score ≥ 80 then
    "This " ++ pyLower category ++ " perfectly complements your " ++ uf.undertone ++ " " ++ uf.depth ++ " skin tone."
  else if score ≥ 60 then
    "This " ++ pyLower category ++ " works well with your " ++ uf.undertone ++ " " ++ uf.depth ++ " skin tone."
  else if score ≥ 40 then
    "This " ++ pyLower category ++ " is compatible with your skin tone."
  else
    "This " ++ pyLower category ++ " has neutral compatibility with your skin tone."

/-- One entry of the recommendations array. -/
structure RecItem where
  productId : String
  compatibilityScore : ℤ
  reason : String
deriving DecidableEq, Inhabited

/-- Emit one ranked entry, exactly as the loop over sorted_products.head(top_n)
does: the id column, int() of the score column, and the reason (the
generative-text collaborator is absent, so generate_recommendation_reason
falls through to the deterministic basic template). -/
def emitRec (uf : UserFeatures) (row : FeatureRow) : RecItem :=
  { productId := getStr row "id",
    compatibilityScore := pyInt (scoreOf row),
    reason := generate_basic_recommendation_reason row uf }

/-- Stable insertion into a list sorted by descending score (a row with a
score equal to an existing one goes after it).  This embeds
`sort_values('compatibility_score', ascending=False)`; note pandas is called
with its default kind='quicksort', which does not document a tie order, so
the embedding fixes the stable order for definiteness. -/
def insertDesc (r : FeatureRow) : List FeatureRow → List FeatureRow
  | [] => [r]
  | x :: xs => if scoreOf r ≤ scoreOf x then x :: insertDesc r xs else r :: x :: xs

/-- Sort rows by descending compatibility_score. -/
def sortDesc : List FeatureRow → List FeatureRow
  | [] => []
  | x :: xs => insertDesc x (sortDesc xs)

/-- get_recommendations: on a non-empty frame, write the score column into
the given DataFrame (returned first, since the caller's stored frame is the
same mutated object), then sort descending and emit the top_n entries. -/
def get_recommendations (product_df : List FeatureRow) (user_features : UserFeatures)
    (model : Model) (top_n : ℕ := 10) : List FeatureRow × List RecItem :=
  if product_df = [] then (product_df, [])
  else
    let scored := scoreTable product_df user_features model
    (scored, ((sortDesc scored).take top_n).map (emitRec user_features))

/-- The process-wide mutable state: the current product feature table and the
models dict (which only ever holds the 'compatibility' key). -/
structure EngineState where
  product_data : Option (List FeatureRow) := none
  models : Option Model := none

/-- An HTTP-level outcome: a 200 body or an error status. -/
inductive ApiResp where
  | ok (msg : String)
  | err (code : ℕ) (msg : String)
deriving DecidableEq

/-- initialize_engine: 400 on an empty product list; otherwise the global
product table is rebuilt and assigned first, and only then is the model
trained — on a training failure the endpoint returns 500 with the new table
already in place. -/
def initialize_engine (fit : List FeatureRow → Model) (st : EngineState)
    (products : List Product) (skinTones : Option (List SkinTone)) : EngineState × ApiResp :=
  let skin_tones := skinTones.getD SKIN_TONES
  if products = [] then (st, ApiResp.err 400 "No product data provided")
  else
    let st := { st with product_data := some (prepare_product_dataframe products) }
    match train_compatibility_model fit products skin_tones with
    | some model =>
        ({ st with models := some model }, ApiResp.ok "Models trained successfully")
    | none => (st, ApiResp.err 500 "Failed to train models")

/-- The /api/recommend response. -/
inductive RecResp where
  | ok (recommendations : List RecItem)
  | err (code : ℕ) (msg : String)
deriving DecidableEq

/-- recommend_products: replace the stored table when products are supplied,
400 without a usable table, lazily train when untrained (falling back to the
built-in sample catalog), then run get_recommendations with top_n = 20 — the
stored table thereby becomes the score-mutated frame. -/
def recommend_products (fit : List FeatureRow → Model) (st : EngineState)
    (user_info : UserInfo) (products : List Product) : EngineState × RecResp :=
  let st := if products = [] then st
            else { st with product_data := some (prepare_product_dataframe products) }
  match st.product_data with
  | none => (st, RecResp.err 400 "No product data available")
  | some table =>
    if table = [] then (st, RecResp.err 400 "No product data available")
    else
      match st.models with
      | some model =>
          let user_features := prepare_user_features user_info
          let res := get_recommendations table user_features model 20
          ({ st with product_data := some res.1 }, RecResp.ok res.2)
      | none =>
          match train_compatibility_model fit
              (if products = [] then SAMPLE_PRODUCTS else products) SKIN_TONES with
          | some model =>
              let st := { st with models := some model }
              let user_features := prepare_user_features user_info
              let res := get_recommendations table user_features model 20
              ({ st with product_data := some res.1 }, RecResp.ok res.2)
          | none => (st, RecResp.err 500 "Recommendation model not trained")

/-- Whether a response is a non-2xx error. -/
def ApiResp.isErr : ApiResp → Bool
  | .ok _ => false
  | .err _ _ => true

/-- A concrete trained model used to instantiate the abstract classifier in
witnesses and counterexamples: every row predicts P(high) = 267/400. -/
def mWitness : Model := { probaHigh := fun _ => 267/400, features := [] }

/-- A concrete fit function returning mWitness. -/
def fitWitness : List FeatureRow → Model := fun _ => mWitness

/-- A concrete product for witnesses. -/
def pWitness : Product := { id := "1", colors := ["Navy", "Red"], category := "Tops" }

/-- Its one-row product table. -/
def dfWitness : List FeatureRow := prepare_product_dataframe [pWitness]

/-- Concrete user features for witnesses. -/
def ufWitness : UserFeatures := { undertone := "cool", depth := "medium" }

/-- Concrete request userInfo for witnesses. -/
def uiWitness : UserInfo := { undertone := some "cool", depth := some "medium" }

/-- A pre-existing engine state holding an old product table and no model. -/
def stOld : EngineState :=
  { product_data := some [[("id", FVal.s "old")]], models := none }

/-- An engine state with the witness table and a trained model. -/
def stWitness : EngineState := { product_data := some dfWitness, models := some mWitness }

/-- The unscored feature row of the witness product. -/
def rowW : FeatureRow := setKey (extract_product_features pWitness) "id" (FVal.s "1")

/-- Its scored version. -/
def scoredRowW : FeatureRow := setKey rowW "compatibility_score" (FVal.n (267/4))

/-- C3: for every list of color strings and every undertone the simple rule
scorer is total and returns a value in [0, 100], and the /api/compatibility
score (simple scorer plus category bonus, as clamped by the endpoint) also
stays in [0, 100]. -/
theorem rule_scorer_total_bounded :
    (∀ (colors : List String) (undertone : String),
      0 ≤ color_compatibility_score colors undertone ∧
      color_compatibility_score colors undertone ≤ 100) ∧
    (∀ (p : Product) (u : UserInfo),
      0 ≤ (calculate_compatibility p u).1 ∧ (calculate_compatibility p u).1 ≤ 100) := by
  constructor
  · intro colors undertone
    unfold color_compatibility_score
    split
    · omega
    · dsimp only
      generalize List.foldl _ 50 colors = k
      omega
  · intro p u
    unfold calculate_compatibility
    dsimp only
    omega

/-- C4: get_color_tone lower-cases its input; an exact dictionary-key match
takes priority; otherwise the first key in declaration order occurring as a
substring of the input decides; otherwise the result is "neutral"; and the
result only depends on the lower-cased input, hence never on casing. -/
theorem tone_lookup_behavior :
    (∀ (s : String) (kv : String × String),
      COLOR_TONES.find? (fun kv => kv.1 == pyLower s) = some kv →
      get_color_tone s = kv.2) ∧
    (∀ (s : String) (kv : String × String),
      COLOR_TONES.find? (fun kv => kv.1 == pyLower s) = none →
      COLOR_TONES.find? (fun kv => containsStr kv.1 (pyLower s)) = some kv →
      get_color_tone s = kv.2) ∧
    (∀ s : String,
      COLOR_TONES.find? (fun kv => kv.1 == pyLower s) = none →
      COLOR_TONES.find? (fun kv => containsStr kv.1 (pyLower s)) = none →
      get_color_tone s = "neutral") ∧
    (∀ s₁ s₂ : String, pyLower s₁ = pyLower s₂ →
      get_color_tone s₁ = get_color_tone s₂) := by
  refine ⟨?_, ?_, ?_, ?_⟩
  · intro s kv h
    simp only [get_color_tone]
    rw [h]
  · intro s kv h₁ h₂
    simp only [get_color_tone]
    rw [h₁, h₂]
  · intro s h₁ h₂
    simp only [get_color_tone]
    rw [h₁, h₂]
  · intro s₁ s₂ h
    simp only [get_color_tone]
    rw [h]

/-- Witness for tone_lookup_behavior at the concrete inputs "NAVY" and
"navy" from the spec. -/
theorem tone_lookup_behavior_witness :
    get_color_tone "NAVY" = "cool" ∧ get_color_tone "NAVY" = get_color_tone "navy" :=
  ⟨tone_lookup_behavior.1 "NAVY" ("navy", "cool") (by decide),
   tone_lookup_behavior.2.2.2 "NAVY" "navy" (by decide)⟩

/-- C5: the spec scenario: product colors ["Navy", "Red"] in category "Tops"
with undertone "cool" gives simple score 55, endpoint score 60 and
compatibility level "Medium". -/
theorem navy_red_tops_cool_scenario :
    color_compatibility_score ["Navy", "Red"] "cool" = 55 ∧
    calculate_compatibility { id := "1", colors := ["Navy", "Red"], category := "Tops" }
      { undertone := some "cool" } = (60, "Medium") := by
  constructor
  · decide
  · decide

/-- C9: with an empty or missing undertone the simple scorer short-circuits
to the neutral baseline 50 for every color list, so the /api/compatibility
score is 50 plus only the category bonus. -/
theorem missing_undertone_neutral_score :
    (∀ colors : List String, color_compatibility_score colors "" = 50) ∧
    (∀ (p : Product) (d : Option String),
      (calculate_compatibility p { undertone := none, depth := d }).1 =
        if p.category = "Tops" ∨ p.category = "Dresses" then 55 else 50) ∧
    (∀ (p : Product) (d : Option String),
      (calculate_compatibility p { undertone := some "", depth := d }).1 =
        if p.category = "Tops" ∨ p.category = "Dresses" then 55 else 50) := by
  have base : ∀ colors : List String, color_compatibility_score colors "" = 50 := by
    intro colors
    unfold color_compatibility_score
    rw [if_pos (Or.inr rfl)]
  refine ⟨base, ?_, ?_⟩ <;>
    · intro p d
      show (calculate_compatibility p _).1 = _
      unfold calculate_compatibility
      dsimp only [Option.getD]
      rw [base p.colors]
      split <;> decide

lemma extract_eq_spec_row (p : Product) :
    extract_product_features p = spec_feature_row p := by
  unfold extract_product_features spec_feature_row
  by_cases h : p.colors.length = 0
  · simp [h]
  · simp [h, Nat.pos_of_ne_zero h]

lemma extract_keys_fixed (p : Product) :
    (extract_product_features p).map Prod.fst = fixedFeatureKeys := by
  rw [extract_eq_spec_row]
  unfold spec_feature_row fixedFeatureKeys
  simp [Function.comp_def]

/-- C6: any two products get feature rows with identical key lists, that key
list is the fixed schema, and each row is exactly the spec-described row
(family/tone features equal count/num_colors, or 0 with no colors). -/
theorem feature_schema_fixed (p q : Product) :
    (extract_product_features p).map Prod.fst = (extract_product_features q).map Prod.fst ∧
    (extract_product_features p).map Prod.fst = fixedFeatureKeys ∧
    extract_product_features p = spec_feature_row p := by
  refine ⟨?_, extract_keys_fixed p, extract_eq_spec_row p⟩
  rw [extract_keys_fixed p, extract_keys_fixed q]

lemma foldl_labeledScoreStep (recs nots : List String) (colors : List String) (init : ℤ) :
    colors.foldl (labeledScoreStep recs nots) init =
      init + (colors.map (spec_colorAdjustment recs nots)).sum := by
  induction colors generalizing init with
  | nil => simp
  | cons c cs ih =>
    rw [List.foldl_cons, ih, List.map_cons, List.sum_cons]
    unfold labeledScoreStep spec_colorAdjustment
    dsimp only
    split <;> split <;> omega

lemma find?_overwrite_self (k : String) (v : FVal) :
    ∀ row : FeatureRow, row.any (fun kv => kv.1 == k) = true →
      List.find? (fun kv => kv.1 == k)
        (row.map (fun kv => if kv.1 == k then (k, v) else kv)) = some (k, v)
  | [], h => by simp at h
  | kv :: rest, h => by
    rw [List.map_cons]
    by_cases hk : (kv.1 == k) = true
    · rw [if_pos hk]
      simp only [List.find?_cons, beq_self_eq_true]
    · have hkf : (kv.1 == k) = false := by simpa using hk
      rw [if_neg hk]
      simp only [List.find?_cons, hkf]
      exact find?_overwrite_self k v rest (by simpa [hkf] using h)

lemma find?_overwrite_other (k k' : String) (v : FVal) (h : (k' == k) = false) :
    ∀ row : FeatureRow,
      List.find? (fun kv => kv.1 == k)
        (row.map (fun kv => if kv.1 == k' then (k', v) else kv)) =
      List.find? (fun kv => kv.1 == k) row
  | [] => rfl
  | kv :: rest => by
    by_cases hk : (kv.1 == k') = true
    · have hknotk : (kv.1 == k) = false := by
        have : kv.1 = k' := by simpa using hk
        rw [this]; exact h
      rw [List.map_cons, if_pos hk,
          List.find?_cons_of_neg _ (by simp [h]),
          List.find?_cons_of_neg _ (by simp [hknotk]),
          find?_overwrite_other k k' v h rest]
    · rw [List.map_cons, if_neg hk]
      cases hkv : (kv.1 == k) with
      | false =>
        rw [List.find?_cons_of_neg _ (by simp [hkv]),
            List.find?_cons_of_neg _ (by simp [hkv]),
            find?_overwrite_other k k' v h rest]
      | true =>
        rw [List.find?_cons_of_pos _ (by simp [hkv]),
            List.find?_cons_of_pos _ (by simp [hkv])]

lemma lookupKey_setKey_self (row : FeatureRow) (k : String) (v : FVal) :
    lookupKey (setKey row k v) k = some v := by
  unfold setKey
  by_cases hany : row.any (fun kv => kv.1 == k) = true
  · rw [if_pos hany]
    unfold lookupKey
    rw [find?_overwrite_self k v row hany]
    rfl
  · rw [if_neg hany]
    unfold lookupKey
    rw [List.find?_append]
    have hnone : List.find? (fun kv => kv.1 == k) row = none := by
      rw [List.find?_eq_none]
      intro x hx hpx
      exact hany (List.any_eq_true.mpr ⟨x, hx, hpx⟩)
    rw [hnone]
    simp

lemma lookupKey_setKey_other (row : FeatureRow) (k k' : String) (v : FVal)
    (h : (k' == k) = false) :
    lookupKey (setKey row k' v) k = lookupKey row k := by
  unfold setKey
  by_cases hany : row.any (fun kv => kv.1 == k') = true
  · rw [if_pos hany]
    unfold lookupKey
    rw [find?_overwrite_other k k' v h row]
  · rw [if_neg hany]
    unfold lookupKey
    rw [List.find?_append]
    cases hfind : List.find? (fun kv => kv.1 == k) row
    · simp [h]
    · simp

/-- C2: the labeled scorer used by training-set synthesis computes exactly
the spec's description (baseline 50, independent +10 and -10 first-match
adjustments per color, category bonus, clamp), its class thresholds are
70/40, and the synthesized training row records that score and class. -/
theorem labeled_scorer_matches_spec (p : Product) (t : SkinTone) :
    labeledScore p t = spec_labeledScore p t ∧
    classifyScore (labeledScore p t) =
      (if labeledScore p t ≥ 70 then "high"
       else if labeledScore p t ≥ 40 then "medium" else "low") ∧
    lookupKey (trainingRow p t) "compatibility_score" = some (FVal.n (labeledScore p t)) ∧
    lookupKey (trainingRow p t) "compatibility_class" =
      some (FVal.s (classifyScore (labeledScore p t))) := by
  refine ⟨?_, rfl, ?_, ?_⟩
  · simp only [labeledScore, spec_labeledScore]
    rw [foldl_labeledScoreStep]
  · unfold trainingRow
    rw [lookupKey_setKey_other _ _ _ _ (by decide), lookupKey_setKey_self]
  · unfold trainingRow
    rw [lookupKey_setKey_self]

lemma insertDesc_perm (r : FeatureRow) (l : List FeatureRow) :
    List.Perm (insertDesc r l) (r :: l) := by
  induction l with
  | nil => exact List.Perm.refl _
  | cons x xs ih =>
    unfold insertDesc
    split
    · exact (ih.cons x).trans (List.Perm.swap r x xs)
    · exact List.Perm.refl _

lemma sortDesc_perm : ∀ l : List FeatureRow, List.Perm (sortDesc l) l
  | [] => List.Perm.refl _
  | x :: xs => (insertDesc_perm x (sortDesc xs)).trans ((sortDesc_perm xs).cons x)

/-- C7 counterexample: initializing over a stored table with a non-empty
product list but an explicitly empty skinTones list returns the 500 error
while the stored product table has already been replaced, so error responses
do not leave both pieces of state unchanged. -/
theorem initialize_error_replaces_table_cex :
    (initialize_engine fitWitness stOld [pWitness] (some [])).2 =
      ApiResp.err 500 "Failed to train models" ∧
    (initialize_engine fitWitness stOld [pWitness] (some [])).1.product_data ≠
      stOld.product_data := by
  constructor
  · decide
  · decide

/-- C7 (amended): on any error response from /api/initialize the stored model
is unchanged; on the 400 (empty products) path the whole state is unchanged,
while on the remaining error path (training failure, 500) the stored product
table has already been replaced by the new products' feature table. -/
theorem initialize_error_state_effects (fit : List FeatureRow → Model) (st : EngineState)
    (products : List Product) (skinTones : Option (List SkinTone))
    (h : ((initialize_engine fit st products skinTones).2).isErr = true) :
    (initialize_engine fit st products skinTones).1.models = st.models ∧
    (products = [] → (initialize_engine fit st products skinTones).1 = st) ∧
    (products ≠ [] →
      (initialize_engine fit st products skinTones).2 =
        ApiResp.err 500 "Failed to train models" ∧
      (initialize_engine fit st products skinTones).1.product_data =
        some (prepare_product_dataframe products)) := by
  by_cases hp : products = []
  · have heq : initialize_engine fit st products skinTones =
        (st, ApiResp.err 400 "No product data provided") := by
      simp only [initialize_engine, if_pos hp]
    rw [heq]
    exact ⟨rfl, fun _ => rfl, fun hne => absurd hp hne⟩
  · cases htr : train_compatibility_model fit products (skinTones.getD SKIN_TONES) with
    | some m =>
      exfalso
      have heq : initialize_engine fit st products skinTones =
          ({ { st with product_data := some (prepare_product_dataframe products) }
             with models := some m }, ApiResp.ok "Models trained successfully") := by
        simp only [initialize_engine, if_neg hp, htr]
      rw [heq] at h
      exact Bool.noConfusion h
    | none =>
      have heq : initialize_engine fit st products skinTones =
          ({ st with product_data := some (prepare_product_dataframe products) },
           ApiResp.err 500 "Failed to train models") := by
        simp only [initialize_engine, if_neg hp, htr]
      rw [heq]
      exact ⟨rfl, fun he => absurd he hp, fun _ => ⟨rfl, rfl⟩⟩

/-- Witness for initialize_error_state_effects on the concrete 400 path. -/
theorem initialize_error_state_effects_witness :
    (initialize_engine fitWitness stOld [] none).1.models = stOld.models ∧
    (([] : List Product) = [] → (initialize_engine fitWitness stOld [] none).1 = stOld) ∧
    (([] : List Product) ≠ [] →
      (initialize_engine fitWitness stOld [] none).2 =
        ApiResp.err 500 "Failed to train models" ∧
      (initialize_engine fitWitness stOld [] none).1.product_data =
        some (prepare_product_dataframe [])) :=
  initialize_error_state_effects fitWitness stOld [] none (by decide)

lemma rowScore_mWitness (uf : UserFeatures) (row : FeatureRow) :
    rowScore mWitness uf row = 267/4 := by
  simp only [rowScore, mWitness]
  norm_num

lemma scoreTable_W : scoreTable dfWitness ufWitness mWitness = [scoredRowW] := by
  unfold scoreTable dfWitness prepare_product_dataframe
  simp only [List.map_cons, List.map_nil]
  rw [rowScore_mWitness]
  rfl

lemma get_recs_W :
    get_recommendations dfWitness ufWitness mWitness 20 =
      ([scoredRowW], [emitRec ufWitness scoredRowW]) := by
  unfold get_recommendations
  rw [if_neg (show ¬dfWitness = [] by decide)]
  dsimp only
  rw [scoreTable_W]
  rfl

lemma scoreOf_W : scoreOf scoredRowW = 267/4 := by
  unfold scoreOf scoredRowW
  rw [lookupKey_setKey_self]

lemma pyInt_267_4 : pyInt ((267 : ℚ)/4) = 66 := by
  have h : ((267 : ℚ)/4) = (⟨267, 4, by norm_num, by norm_num⟩ : ℚ) := by
    rw [Rat.mk'_eq_divInt, Rat.divInt_eq_div]
    norm_num
  rw [h]
  decide

/-- C8 counterexample: with a trained model predicting P(high) = 267/400 the
continuous score is 66.75, the emitted compatibilityScore is int(66.75) = 66,
but the nearest integer is 67 — the emitted field is truncated, not
rounded. -/
theorem rec_score_truncation_cex :
    (get_recommendations dfWitness ufWitness mWitness 20).2.map
      (fun it => it.compatibilityScore) = [66] ∧
    (get_recommendations dfWitness ufWitness mWitness 20).1.map scoreOf = [267/4] ∧
    round ((267 : ℚ)/4) = 67 := by
  refine ⟨?_, ?_, ?_⟩
  · rw [get_recs_W]
    simp only [List.map_cons, List.map_nil]
    rw [show (emitRec ufWitness scoredRowW).compatibilityScore =
         pyInt (scoreOf scoredRowW) from rfl, scoreOf_W, pyInt_267_4]
  · rw [get_recs_W]
    simp only [List.map_cons, List.map_nil]
    rw [scoreOf_W]
  · rw [round_eq]
    norm_num

/-- C8 (amended): every emitted recommendation entry carries the id of some
row of the score-mutated table and int() — truncation toward zero — of that
row's continuous predicted score. -/
theorem rec_score_is_trunc (product_df : List FeatureRow) (uf : UserFeatures)
    (model : Model) (top_n : ℕ) (it : RecItem)
    (h : it ∈ (get_recommendations product_df uf model top_n).2) :
    ∃ row ∈ (get_recommendations product_df uf model top_n).1,
      it.productId = getStr row "id" ∧ it.compatibilityScore = pyInt (scoreOf row) := by
  unfold get_recommendations at h ⊢
  by_cases hE : product_df = []
  · rw [if_pos hE] at h
    simp at h
  · rw [if_neg hE] at h ⊢
    dsimp only at h ⊢
    obtain ⟨row, hrow, hit⟩ := List.mem_map.mp h
    subst hit
    exact ⟨row, (sortDesc_perm _).subset (List.take_subset _ _ hrow), rfl, rfl⟩

/-- Witness for rec_score_is_trunc at the concrete one-product table. -/
theorem rec_score_is_trunc_witness :
    ∃ row ∈ (get_recommendations dfWitness ufWitness mWitness 20).1,
      ((get_recommendations dfWitness ufWitness mWitness 20).2.headI).productId =
        getStr row "id" ∧
      ((get_recommendations dfWitness ufWitness mWitness 20).2.headI).compatibilityScore =
        pyInt (scoreOf row) :=
  rec_score_is_trunc dfWitness ufWitness mWitness 20
    ((get_recommendations dfWitness ufWitness mWitness 20).2.headI)
    (by rw [get_recs_W]; exact List.mem_singleton.mpr rfl)

/-- C10: /api/recommend is not frame-preserving on the stored product table:
on a successful call over the stored table the post-state table is exactly
the score-mutated table (every row now holds the compatibility_score computed
for this call's user profile), and it differs from the pre-state table when
that table had no score column. -/
theorem recommend_mutates_product_table (fit : List FeatureRow → Model)
    (st : EngineState) (user_info : UserInfo) (table : List FeatureRow) (model : Model)
    (h1 : st.product_data = some table) (h2 : table ≠ []) (h3 : st.models = some model)
    (h4 : ∀ row ∈ table, lookupKey row "compatibility_score" = none) :
    (recommend_products fit st user_info []).1.product_data =
      some (scoreTable table (prepare_user_features user_info) model) ∧
    (∀ row ∈ table,
      lookupKey (setKey row "compatibility_score"
          (FVal.n (rowScore model (prepare_user_features user_info) row)))
        "compatibility_score" =
        some (FVal.n (rowScore model (prepare_user_features user_info) row))) ∧
    (recommend_products fit st user_info []).1.product_data ≠ some table := by
  obtain ⟨pd, ms⟩ := st
  dsimp only at h1 h3
  subst h1
  subst h3
  have hA : (recommend_products fit ⟨some table, some model⟩ user_info []).1.product_data =
      some (scoreTable table (prepare_user_features user_info) model) := by
    simp [recommend_products, get_recommendations, h2]
  refine ⟨hA, fun row _ => lookupKey_setKey_self _ _ _, ?_⟩
  rw [hA]
  intro heq
  injection heq with heq
  cases table with
  | nil => exact h2 rfl
  | cons r rest =>
    simp only [scoreTable, List.map_cons] at heq
    obtain ⟨hhead, -⟩ := List.cons.inj heq
    have h5 := lookupKey_setKey_self r "compatibility_score"
      (FVal.n (rowScore model (prepare_user_features user_info) r))
    rw [hhead, h4 r (by simp)] at h5
    exact Option.noConfusion h5

/-- Witness for recommend_mutates_product_table at the concrete state. -/
theorem recommend_mutates_product_table_witness :
    (recommend_products fitWitness stWitness uiWitness []).1.product_data =
      some (scoreTable dfWitness (prepare_user_features uiWitness) mWitness) ∧
    (∀ row ∈ dfWitness,
      lookupKey (setKey row "compatibility_score"
          (FVal.n (rowScore mWitness (prepare_user_features uiWitness) row)))
        "compatibility_score" =
        some (FVal.n (rowScore mWitness (prepare_user_features uiWitness) row))) ∧
    (recommend_products fitWitness stWitness uiWitness []).1.product_data ≠ some dfWitness :=
  recommend_mutates_product_table fitWitness stWitness uiWitness dfWitness mWitness
    rfl (by decide) rfl (by decide)

